import Mathlib

/-!
Verification of the fixture-based integration-test orchestration engine
(control dispatcher and fixture runner in `src/io.rs`, test runtime in
`dummy/src/wasm.rs`), via a shallow embedding in Lean 4.

Message transport is abstracted by an environment `env : Nat → SendResult`
giving, for each consecutive send of one fixture coroutine, whether the
send itself failed, the target reported an execution error, or the target
replied with a payload.  Byte strings (`Vec<u8>`) are `List Nat`; actor
ids and gas amounts are `Nat`.
-/

/-- Actor identity, `gstd::ActorId` in the source (opaque 256-bit id, modelled as Nat). -/
abbrev ActorId := Nat

/-- Index into an external string table, `service::StringIndex`. -/
abbrev StringIndex := Nat

/-- Modelled from the spec: the `service` module is not among the provided
sources.  A preparation step (spec §3): a request (payload bytes, a gas
allowance, optionally a value transfer) whose reply is awaited but not
validated. -/
structure Preparation where
  payload : List Nat
  gas : Nat
  value : Nat
deriving DecidableEq, Repr

/-- Modelled from the spec: the request half of an expectation step
(payload, gas allowance, value), `expectation.request` in `io.rs`. -/
structure Request where
  payload : List Nat
  gas : Nat
  value : Nat
deriving DecidableEq, Repr

/-- Modelled from the spec: the expected-response half of an expectation
step; `none` means any response is acceptable, `some bytes` means the
actual reply payload must equal it exactly (spec §3). -/
structure Response where
  payload : Option (List Nat)
deriving DecidableEq, Repr

/-- Modelled from the spec: an expectation step is a request paired with an
expected response spec. -/
structure Expectation where
  request : Request
  response : Response
deriving DecidableEq, Repr

/-- Modelled from the spec: a fixture is an ordered sequence of preparation
steps and an ordered sequence of expectation steps (field names as used by
`io.rs`: `fixture.preparation`, `fixture.expectations`). -/
structure Fixture where
  preparation : List Preparation
  expectations : List Expectation
deriving DecidableEq, Repr, Inhabited

/-- Modelled from the spec: the `service::Service` state — the fixture
collection plus the address of the target actor (`ref_svc.address()` in
`io.rs`). -/
structure Service where
  fixturesList : List Fixture
  addressVal : ActorId
deriving DecidableEq, Repr

/-- `service.fixtures()` accessor used throughout `io.rs`. -/
def Service.fixtures (s : Service) : List Fixture := s.fixturesList

/-- `service.address()` — the target actor all requests are sent to. -/
def Service.address (s : Service) : ActorId := s.addressVal

/-- Modelled from the spec: `gas_required`, "the total gas the whole
collection declares it needs" (spec §4.1) — the sum of the gas allowances
of every preparation and expectation step of every fixture. -/
def Fixture.gasRequired (f : Fixture) : Nat :=
  (f.preparation.map (fun p => p.gas)).sum
    + (f.expectations.map (fun e => e.request.gas)).sum

/-- Modelled from the spec: total declared gas need of the collection. -/
def Service.gas_required (s : Service) : Nat :=
  (s.fixtures.map Fixture.gasRequired).sum

/-- Modelled from the spec: `service.drop_fixture(i)` removes the fixture
at `i`, shifting later indices down by one (spec §4.1). -/
def Service.drop_fixture (s : Service) (i : Nat) : Service :=
  { s with fixturesList := s.fixturesList.eraseIdx i }

/-- Modelled from the spec: `service.add_fixture` appends to the end. -/
def Service.addFixtureSvc (s : Service) (f : Fixture) : Service :=
  { s with fixturesList := s.fixturesList ++ [f] }

/-- Modelled from the spec: `service.clear_fixtures` empties the collection. -/
def Service.clearFixturesSvc (s : Service) : Service :=
  { s with fixturesList := [] }

/-- Outcome of one `send_bytes_for_reply` exchange, as the environment
resolves it: the send itself returned `Err` before dispatch, the awaited
reply was a target-side error (`gstd::errors::Error` modelled as a Nat
code), or the target replied with a payload. -/
inductive SendResult where
  | sendFail : SendResult
  | execFail (e : Nat) : SendResult
  | reply (payload : List Nat) : SendResult
deriving DecidableEq, Repr

/-- The `RuntimeError` enum local to `Handler::run_fixtures` in `io.rs`. -/
inductive RuntimeError where
  | PreparationSendFail (fixtureNo : Nat) : RuntimeError
  | ExpectationSendFail (fixtureNo : Nat) : RuntimeError
  | ExpectationExecutionFail (fixtureNo : Nat) (e : Nat) : RuntimeError
  | PayloadMismatch (fixtureNo : Nat) (payload : List Nat) : RuntimeError
deriving DecidableEq, Repr

/-- One call to `gstd::msg::send_bytes_for_reply(dest, payload, value, gas)`
as it appears on the wire. -/
structure SentMsg where
  dest : ActorId
  payload : List Nat
  value : Nat
  gas : Nat
deriving DecidableEq, Repr

/-- The preparation loop of the per-fixture coroutine in
`Handler::run_fixtures` (`io.rs` lines 182–193): each preparation is sent
with value `0` and its reply awaited with the content discarded; a failed
send returns `PreparationSendFail(fixture_no)`.  `stepNo` numbers the
fixture's sends consecutively for reply correlation. -/
def runPreparations (env : Nat → SendResult) (addr : ActorId) (fixtureNo : Nat) :
    Nat → List Preparation → List SentMsg × Option RuntimeError
  | _, [] => ([], none)
  | stepNo, p :: rest =>
    let m : SentMsg := ⟨addr, p.payload, 0, p.gas⟩
    match env stepNo with
    | SendResult.sendFail => ([m], some (RuntimeError.PreparationSendFail fixtureNo))
    | _ =>
      let r := runPreparations env addr fixtureNo (stepNo + 1) rest
      (m :: r.1, r.2)

/-- The expectation loop of the per-fixture coroutine in
`Handler::run_fixtures` (`io.rs` lines 196–227): each expectation request
is sent with value `0`; a failed send, a target-side execution error, or a
reply differing from a `some` expected payload aborts the fixture with the
corresponding `RuntimeError`. -/
def runExpectations (env : Nat → SendResult) (addr : ActorId) (fixtureNo : Nat) :
    Nat → List Expectation → List SentMsg × Option RuntimeError
  | _, [] => ([], none)
  | stepNo, e :: rest =>
    let m : SentMsg := ⟨addr, e.request.payload, 0, e.request.gas⟩
    match env stepNo with
    | SendResult.sendFail => ([m], some (RuntimeError.ExpectationSendFail fixtureNo))
    | SendResult.execFail err =>
      ([m], some (RuntimeError.ExpectationExecutionFail fixtureNo err))
    | SendResult.reply payload =>
      match e.response.payload with
      | some expected =>
        if expected ≠ payload then
          ([m], some (RuntimeError.PayloadMismatch fixtureNo payload))
        else
          let r := runExpectations env addr fixtureNo (stepNo + 1) rest
          (m :: r.1, r.2)
      | none =>
        let r := runExpectations env addr fixtureNo (stepNo + 1) rest
        (m :: r.1, r.2)

/-- The whole per-fixture coroutine body pushed onto the `FuturesUnordered`
stream in `Handler::run_fixtures`: all preparations in list order, then all
expectations in list order, aborting at the first failure.  Returns the
ordered trace of sends together with the failure, if any. -/
def runFixture (env : Nat → SendResult) (addr : ActorId) (fixtureNo : Nat)
    (f : Fixture) : List SentMsg × Option RuntimeError :=
  let prep := runPreparations env addr fixtureNo 0 f.preparation
  match prep.2 with
  | some e => (prep.1, some e)
  | none =>
    let exps := runExpectations env addr fixtureNo f.preparation.length f.expectations
    (prep.1 ++ exps.1, exps.2)

/-- The `Error` enum of `io.rs`. -/
inductive Error where
  | NotFound : Error
  | NotEnoughGas (actual : Nat) (needed : Nat) : Error
deriving DecidableEq, Repr

/-- The `FailedFixtures` run report of `io.rs`: a list of
`(fixture_index, failure_hint_reference)` pairs. -/
structure FailedFixtures where
  indices : List (Nat × StringIndex)
deriving DecidableEq, Repr

/-- The `Control` command enum of `io.rs`. -/
inductive Control where
  | GetOwner : Control
  | ReplaceOwner (new_owner : ActorId) : Control
  | GetFixtures : Control
  | RemoveFixture (index : Nat) : Control
  | UpdateFixture (index : Nat) (fixture : Fixture) : Control
  | AddFixture (fixture : Fixture) : Control
  | ClearFixtures : Control
  | RunFixtures : Control
deriving DecidableEq, Repr

deriving instance DecidableEq for Except

/-- A value carried in a reply payload.  The source SCALE-encodes the value
(`t.encode()` in `Reply::from`); encoding is injective per type, so the
payload is modelled as the encoded value itself, tagged by type. -/
inductive Payload where
  | actor (a : ActorId) : Payload
  | fixtures (fs : List Fixture) : Payload
  | unitResult (r : Except Error Unit) : Payload
  | runResult (r : Except Error FailedFixtures) : Payload
deriving DecidableEq, Repr

/-- The `Reply` struct of `io.rs`: an optional reply payload. -/
structure Reply where
  payload : Option Payload
deriving DecidableEq, Repr

/-- `Reply::none()` — the empty reply. -/
def Reply.none : Reply := ⟨Option.none⟩

/-- The `Handler` of `io.rs`: the engine state one control session
operates on — the fixture service plus the mutable owner field. -/
structure Handler where
  service : Service
  owner : ActorId
deriving DecidableEq, Repr

/-- `Handler::get_owner`. -/
def Handler.get_owner (h : Handler) : ActorId := h.owner

/-- `Handler::get_fixtures`: a snapshot copy of the collection. -/
def Handler.get_fixtures (h : Handler) : List Fixture := h.service.fixtures

/-- `Handler::remove_fixture` (`io.rs` lines 122–130): in-bounds indices
drop the fixture, out-of-bounds indices fail with `NotFound` and leave the
collection unchanged. -/
def Handler.remove_fixture (h : Handler) (index : Nat) :
    Except Error Unit × Handler :=
  if index < h.service.fixtures.length then
    (Except.ok (), { h with service := h.service.drop_fixture index })
  else
    (Except.error Error.NotFound, h)

/-- `Handler::update_fixture` (`io.rs` lines 132–142): in-bounds indices
replace the fixture in place, out-of-bounds indices fail with `NotFound`
and leave the collection unchanged. -/
def Handler.update_fixture (h : Handler) (index : Nat) (fixture : Fixture) :
    Except Error Unit × Handler :=
  if index < h.service.fixtures.length then
    (Except.ok (),
      { h with service :=
        { h.service with fixturesList := h.service.fixturesList.set index fixture } })
  else
    (Except.error Error.NotFound, h)

/-- `Handler::add_fixture`. -/
def Handler.add_fixture (h : Handler) (fixture : Fixture) : Handler :=
  { h with service := h.service.addFixtureSvc fixture }

/-- `Handler::clear_fixtures`. -/
def Handler.clear_fixtures (h : Handler) : Handler :=
  { h with service := h.service.clearFixturesSvc }

/-- `Handler::run_fixtures` (`io.rs` lines 152–234).  The admission gate
compares `gas_available` with the collection's declared `gas_required` and
rejects with `NotEnoughGas` before anything is sent.  If admitted, the
per-fixture coroutines (whose semantics is `runFixture`) are pushed onto a
`FuturesUnordered` stream — but the stream is never polled before the
function returns, so no message is sent and `fails_list` remains the empty
vector it was initialised to: the result is always the default (empty)
`FailedFixtures` report.  Returns the result together with the list of
messages actually sent. -/
def run_fixtures (env : Nat → Nat → SendResult) (svc : Service)
    (gas_available : Nat) : Except Error FailedFixtures × List SentMsg :=
  let gas_required := svc.gas_required
  if gas_available < gas_required then
    (Except.error (Error.NotEnoughGas gas_available gas_required), [])
  else
    let _fixtures_stream :=
      (List.range svc.fixtures.length).map
        (fun i => fun _ : Unit => runFixture (env i) svc.address i svc.fixtures[i]!)
    (Except.ok ⟨[]⟩, [])

/-- `Handler::dispatch` (`io.rs` lines 91–112): routes one decoded command
to the corresponding engine operation and maps its result into a reply.
`env` and `gas_available` abstract the host message transport and
`gstd::exec::gas_available()` for the `RunFixtures` arm. -/
def Handler.dispatch (env : Nat → Nat → SendResult) (gas_available : Nat)
    (h : Handler) (c : Control) : Reply × Handler :=
  match c with
  | Control.GetOwner => (⟨some (Payload.actor h.get_owner)⟩, h)
  | Control.ReplaceOwner new_owner => (Reply.none, { h with owner := new_owner })
  | Control.GetFixtures => (⟨some (Payload.fixtures h.get_fixtures)⟩, h)
  | Control.RemoveFixture index =>
    let r := h.remove_fixture index
    (⟨some (Payload.unitResult r.1)⟩, r.2)
  | Control.UpdateFixture index fixture =>
    let r := h.update_fixture index fixture
    (⟨some (Payload.unitResult r.1)⟩, r.2)
  | Control.AddFixture fixture => (Reply.none, h.add_fixture fixture)
  | Control.ClearFixtures => (Reply.none, h.clear_fixtures)
  | Control.RunFixtures =>
    (⟨some (Payload.runResult (run_fixtures env h.service gas_available).1)⟩, h)

/-- Recogniser for the `ReplaceOwner` command variant. -/
def Control.isReplaceOwner : Control → Bool
  | Control.ReplaceOwner _ => true
  | _ => false

/-- `ControlSignal` of `dummy/src/wasm.rs`: the session-initiating message,
carrying a reference to the actor under test. -/
structure ControlSignal where
  deployed_actor : ActorId
deriving DecidableEq, Repr

/-- `ProgressSignal` of `dummy/src/wasm.rs`: test lifecycle events. -/
inductive ProgressSignal where
  | TestStart (name : String) : ProgressSignal
  | TestSuccess (name : String) : ProgressSignal
deriving DecidableEq, Repr

/-- `TestContext` of `dummy/src/wasm.rs`. -/
structure TestContext where
  deployed_actor : ActorId
  control_bus : ActorId
deriving DecidableEq, Repr

/-- `TestContext::current` (`wasm.rs` lines 50–57): decodes the
`ControlSignal` from the current message and remembers its sender
(`msg::source()`) as the control bus. -/
def TestContext.current (signal : ControlSignal) (source : ActorId) : TestContext :=
  { deployed_actor := signal.deployed_actor, control_bus := source }

/-- A fire-and-forget `gstd::msg::send(dest, signal, value)`. -/
structure ProgressMsg where
  dest : ActorId
  signal : ProgressSignal
  value : Nat
deriving DecidableEq, Repr

/-- `TestContext::send_progress` (`wasm.rs` lines 59–61): as written in the
source it performs `msg::send(self.deployed_actor, msg, 0)` — the
destination is the deployed actor field, not the stored control bus. -/
def TestContext.send_progress (ctx : TestContext) (m : ProgressSignal) : ProgressMsg :=
  { dest := ctx.deployed_actor, signal := m, value := 0 }

/-- `TestContext::test_start`. -/
def TestContext.test_start (ctx : TestContext) (name : String) : ProgressMsg :=
  ctx.send_progress (ProgressSignal.TestStart name)

/-- `TestContext::test_success`. -/
def TestContext.test_success (ctx : TestContext) (name : String) : ProgressMsg :=
  ctx.send_progress (ProgressSignal.TestSuccess name)

/-- The body of the async block built by `test_smoky` (`wasm.rs` lines
78–91), as the messages it emits once it is actually driven: it reads the
test context, reports `TestStart`, runs the (trivially passing) assertion
body, and reports `TestSuccess`. -/
def smokyBody (signal : ControlSignal) (source : ActorId) : List ProgressMsg :=
  let context := TestContext.current signal source
  [context.test_start "test_smoky", context.test_success "test_smoky"]

/-- The process-wide `CONTEXT_FUTURES` pending task set: each registered
coroutine is a suspended computation, represented by the messages it will
emit once driven with the session's control signal and sender. -/
abbrev TaskSet := List (ControlSignal → ActorId → List ProgressMsg)

/-- `test_smoky` (`wasm.rs` lines 77–96), the registered entry point: it
synchronously constructs the boxed test future and pushes it onto
`CONTEXT_FUTURES`.  Rust async blocks are inert until polled, so invoking
the entry point emits no messages; the returned list is the messages sent
by the invocation itself. -/
def test_smoky (tasks : TaskSet) : TaskSet × List ProgressMsg :=
  (tasks ++ [smokyBody], [])

/-- Specification-side description of the wire trace of a fixture's
preparation steps, in list order (spec §4.1); compared against the trace
the embedded coroutine `runFixture` produces. -/
def prepMsgsSpec (addr : ActorId) (ps : List Preparation) : List SentMsg :=
  ps.map (fun p => ⟨addr, p.payload, 0, p.gas⟩)

/-- Specification-side description of the wire trace of a fixture's
expectation steps, in list order (spec §4.1). -/
def expectMsgsSpec (addr : ActorId) (es : List Expectation) : List SentMsg :=
  es.map (fun e => ⟨addr, e.request.payload, 0, e.request.gas⟩)

/-- Erase the value-transfer field of a preparation step. -/
def Preparation.eraseValue (p : Preparation) : Preparation :=
  { p with value := 0 }

/-- Erase the value-transfer field of an expectation's request. -/
def Expectation.eraseValue (e : Expectation) : Expectation :=
  { e with request := { e.request with value := 0 } }

/-- Erase every value-transfer field of a fixture: two fixtures differ only
in the value fields of their steps exactly when their erasures coincide. -/
def Fixture.eraseValues (f : Fixture) : Fixture :=
  { preparation := f.preparation.map Preparation.eraseValue,
    expectations := f.expectations.map Expectation.eraseValue }

/-- Erase every value-transfer field of a whole service collection. -/
def Service.eraseValues (s : Service) : Service :=
  { s with fixturesList := s.fixturesList.map Fixture.eraseValues }

/-- An environment in which every send succeeds and the target always
replies with the single byte `89`. -/
def envReply89 : Nat → Nat → SendResult := fun _ _ => SendResult.reply [89]

/-- A fixture with one expectation whose expected payload is `[88]`. -/
def fixtureX : Fixture := ⟨[], [⟨⟨[1], 5, 0⟩, ⟨some [88]⟩⟩]⟩

/-- A one-fixture collection around `fixtureX`, target actor `7`. -/
def svcX : Service := ⟨[fixtureX], 7⟩

/-- A fixture with one preparation and two expectations; the first
expectation expects `[88]`, the second expects `[89]`. -/
def fixtureY : Fixture :=
  ⟨[⟨[9], 2, 0⟩], [⟨⟨[1], 5, 0⟩, ⟨some [88]⟩⟩, ⟨⟨[2], 5, 0⟩, ⟨some [89]⟩⟩]⟩

/-- A one-fixture collection around `fixtureY`, target actor `7`. -/
def svcY : Service := ⟨[fixtureY], 7⟩

/-- A fixture with one preparation and one don't-care expectation. -/
def fixtureZ : Fixture := ⟨[⟨[9], 2, 0⟩], [⟨⟨[1], 5, 0⟩, ⟨Option.none⟩⟩]⟩

/-- Like `fixtureV0` below but with non-zero value-transfer fields. -/
def fixtureV1 : Fixture := ⟨[⟨[9], 2, 3⟩], [⟨⟨[1], 5, 4⟩, ⟨some [89]⟩⟩]⟩

/-- Like `fixtureV1` but with all value-transfer fields zero. -/
def fixtureV0 : Fixture := ⟨[⟨[9], 2, 0⟩], [⟨⟨[1], 5, 0⟩, ⟨some [89]⟩⟩]⟩

/-- One-fixture collections around `fixtureV1` and `fixtureV0`. -/
def svcV1 : Service := ⟨[fixtureV1], 7⟩

/-- See `svcV1`. -/
def svcV0 : Service := ⟨[fixtureV0], 7⟩

/-- A handler over `svcX` owned by actor `3`. -/
def handlerX : Handler := ⟨svcX, 3⟩

/-- Claim C1 (code bug).  Evaluation of the code at a failing input: the
collection `svcX` holds one fixture whose single expectation fails with a
payload mismatch under `envReply89` (the coroutine body `runFixture`
yields `PayloadMismatch`), the run is admitted (`gas_required = 5 ≤ 1000`),
yet `run_fixtures` returns the empty `FailedFixtures` report — the
`FuturesUnordered` stream is never polled and `fails_list` is never
populated, so the failing fixture's index `0` is absent from the report,
contradicting the claimed aggregation. -/
theorem c1_run_report_always_empty :
    (runFixture (envReply89 0) svcX.address 0 fixtureX).2
        = some (RuntimeError.PayloadMismatch 0 [89])
    ∧ svcX.gas_required ≤ 1000
    ∧ run_fixtures envReply89 svcX 1000 = (Except.ok ⟨[]⟩, []) := by
  refine ⟨by decide, by decide, by decide⟩

/-- Claim C3 (code bug).  For the session started by
`ControlSignal { deployed_actor := 1 }` sent from actor `2`, the test
context records `2` as the control bus, yet every progress event the test
coroutine emits — `TestStart` and `TestSuccess` — is addressed to the
deployed actor `1`, never to the control bus `2`:
`TestContext::send_progress` performs
`msg::send(self.deployed_actor, msg, 0)`. -/
theorem c3_progress_sent_to_deployed_actor :
    (TestContext.current ⟨1⟩ 2).control_bus = 2
    ∧ ((TestContext.current ⟨1⟩ 2).test_start "test_smoky").dest = 1
    ∧ ((TestContext.current ⟨1⟩ 2).test_success "test_smoky").dest = 1
    ∧ ∀ m ∈ smokyBody ⟨1⟩ 2, m.dest = 1 := by
  refine ⟨rfl, rfl, rfl, ?_⟩
  intro m hm
  simp [smokyBody, TestContext.current, TestContext.test_start,
    TestContext.test_success, TestContext.send_progress] at hm
  rcases hm with h | h <;> simp [h]

/-- Claim C7 (code bug).  Evaluation of the code at a failing input: in
`fixtureY` the first expectation fails with a payload mismatch, and the
coroutine body short-circuits — the trace holds only the preparation send
and the first expectation send, the second expectation `⟨7, [2], 0, 5⟩` is
never sent, and the failure value carries the fixture index `0`.  But the
failure is never recorded with a failure-hint reference: `run_fixtures`
never polls the stream, and its report stays empty. -/
theorem c7_short_circuit_but_nothing_recorded :
    runFixture (envReply89 0) svcY.address 0 fixtureY
        = ([⟨7, [9], 0, 2⟩, ⟨7, [1], 0, 5⟩],
           some (RuntimeError.PayloadMismatch 0 [89]))
    ∧ run_fixtures envReply89 svcY 1000 = (Except.ok ⟨[]⟩, []) := by
  refine ⟨by decide, by decide⟩

/-- Claim C9 (confirmed).  Invoking the registered entry point `test_smoky`
appends exactly one coroutine for the test to the end of the pending task
set, sends no messages itself (its async block is inert until polled), and
the appended coroutine is the one that, only when later driven with the
session's control signal, emits `TestStart` and then `TestSuccess`. -/
theorem c9_registration_appends_without_running (tasks : TaskSet)
    (signal : ControlSignal) (source : ActorId) :
    (test_smoky tasks).1 = tasks ++ [smokyBody]
    ∧ (test_smoky tasks).1.length = tasks.length + 1
    ∧ (test_smoky tasks).2 = []
    ∧ smokyBody signal source
        = [⟨signal.deployed_actor, ProgressSignal.TestStart "test_smoky", 0⟩,
           ⟨signal.deployed_actor, ProgressSignal.TestSuccess "test_smoky", 0⟩] := by
  refine ⟨rfl, by simp [test_smoky], rfl, rfl⟩

/-- Claim C2 (confirmed).  Admission control: when available gas `A` falls
short of the collection's declared `gas_required`, `run_fixtures` returns
`NotEnoughGas { actual := A, needed := gas_required }` having sent no
message; when `A` covers the requirement the run is admitted (an `ok`
report is returned, never `NotEnoughGas`); and dispatching `RunFixtures`
leaves the whole engine state (service collection and owner) unchanged. -/
theorem c2_admission_control (env : Nat → Nat → SendResult) (svc : Service)
    (A : Nat) :
    (A < svc.gas_required →
      run_fixtures env svc A
        = (Except.error (Error.NotEnoughGas A svc.gas_required), []))
    ∧ (svc.gas_required ≤ A →
      (run_fixtures env svc A).1 = Except.ok ⟨[]⟩)
    ∧ ∀ h : Handler, (Handler.dispatch env A h Control.RunFixtures).2 = h := by
  refine ⟨?_, ?_, ?_⟩
  · intro hlt
    simp [run_fixtures, hlt]
  · intro hge
    simp [run_fixtures, Nat.not_lt.mpr hge]
  · intro h
    simp [Handler.dispatch]

/-- Witness for C2: for the concrete collection `svcX` (declared gas need
`5`), a run with `3` gas available is rejected with
`NotEnoughGas { actual := 3, needed := 5 }` and an empty send trace, and a
run with `1000` gas available is admitted. -/
theorem c2_admission_control_witness :
    run_fixtures envReply89 svcX 3
      = (Except.error (Error.NotEnoughGas 3 5), [])
    ∧ (run_fixtures envReply89 svcX 1000).1 = Except.ok ⟨[]⟩ := by
  constructor
  · have h := (c2_admission_control envReply89 svcX 3).1 (by decide)
    simpa using h
  · exact (c2_admission_control envReply89 svcX 1000).2.1 (by decide)

/-- Claim C4 (confirmed).  CRUD bounds: for any index at or beyond the
collection length, `remove_fixture` and `update_fixture` return `NotFound`
and return the handler (hence the collection) unchanged; for any index
strictly below the length both succeed. -/
theorem c4_crud_bounds (h : Handler) (i : Nat) (f : Fixture) :
    (h.service.fixtures.length ≤ i →
      h.remove_fixture i = (Except.error Error.NotFound, h)
      ∧ h.update_fixture i f = (Except.error Error.NotFound, h))
    ∧ (i < h.service.fixtures.length →
      (h.remove_fixture i).1 = Except.ok ()
      ∧ (h.update_fixture i f).1 = Except.ok ()) := by
  constructor
  · intro hge
    constructor
    · simp [Handler.remove_fixture, Nat.not_lt.mpr hge]
    · simp [Handler.update_fixture, Nat.not_lt.mpr hge]
  · intro hlt
    constructor
    · simp [Handler.remove_fixture, hlt]
    · simp [Handler.update_fixture, hlt]

/-- Witness for C4: on the one-fixture handler `handlerX`, index `5` is
rejected with `NotFound` by both operations with the handler unchanged,
while index `0` succeeds for both. -/
theorem c4_crud_bounds_witness :
    (handlerX.remove_fixture 5 = (Except.error Error.NotFound, handlerX)
      ∧ handlerX.update_fixture 5 fixtureY
          = (Except.error Error.NotFound, handlerX))
    ∧ ((handlerX.remove_fixture 0).1 = Except.ok ()
      ∧ (handlerX.update_fixture 0 fixtureY).1 = Except.ok ()) := by
  constructor
  · exact (c4_crud_bounds handlerX 5 fixtureY).1 (by decide)
  · exact (c4_crud_bounds handlerX 0 fixtureY).2 (by decide)

/-- Claim C8 (confirmed).  Dispatching `ReplaceOwner { new_owner }` yields
the empty reply and rebinds the handler's owner field; a following
`GetOwner` dispatch on the resulting handler replies with the new owner,
and dispatching any command other than a further `ReplaceOwner` preserves
the new owner, so every subsequent dispatch observes it. -/
theorem c8_replace_owner_read_after_write (env : Nat → Nat → SendResult)
    (A : Nat) (h : Handler) (newOwner : ActorId) :
    (Handler.dispatch env A h (Control.ReplaceOwner newOwner)).1 = Reply.none
    ∧ ((Handler.dispatch env A h (Control.ReplaceOwner newOwner)).2).owner
        = newOwner
    ∧ (Handler.dispatch env A
        ((Handler.dispatch env A h (Control.ReplaceOwner newOwner)).2)
        Control.GetOwner).1
        = ⟨some (Payload.actor newOwner)⟩
    ∧ ∀ c : Control, c.isReplaceOwner = false →
        ((Handler.dispatch env A
          ((Handler.dispatch env A h (Control.ReplaceOwner newOwner)).2)
          c).2).owner = newOwner := by
  refine ⟨rfl, rfl, rfl, ?_⟩
  intro c hc
  cases c with
  | ReplaceOwner o => simp [Control.isReplaceOwner] at hc
  | RemoveFixture i =>
    simp only [Handler.dispatch, Handler.remove_fixture]
    split <;> rfl
  | UpdateFixture i f =>
    simp only [Handler.dispatch, Handler.update_fixture]
    split <;> rfl
  | _ => rfl

/-- Witness for C8: on the concrete handler `handlerX` (owner `3`),
replacing the owner by `42` yields the empty reply, a following `GetOwner`
replies with `42`, and a following `GetFixtures` (not a `ReplaceOwner`)
still observes owner `42`. -/
theorem c8_replace_owner_witness :
    (Handler.dispatch envReply89 0 handlerX (Control.ReplaceOwner 42)).1
        = Reply.none
    ∧ (Handler.dispatch envReply89 0
        ((Handler.dispatch envReply89 0 handlerX
          (Control.ReplaceOwner 42)).2) Control.GetOwner).1
        = ⟨some (Payload.actor 42)⟩
    ∧ ((Handler.dispatch envReply89 0
        ((Handler.dispatch envReply89 0 handlerX
          (Control.ReplaceOwner 42)).2) Control.GetFixtures).2).owner = 42 := by
  have h := c8_replace_owner_read_after_write envReply89 0 handlerX 42
  exact ⟨h.1, h.2.2.1, h.2.2.2 Control.GetFixtures rfl⟩

theorem prepMsgsSpec_cons (addr : ActorId) (p : Preparation)
    (ps : List Preparation) :
    prepMsgsSpec addr (p :: ps)
      = (⟨addr, p.payload, 0, p.gas⟩ : SentMsg) :: prepMsgsSpec addr ps := rfl

theorem expectMsgsSpec_cons (addr : ActorId) (e : Expectation)
    (es : List Expectation) :
    expectMsgsSpec addr (e :: es)
      = (⟨addr, e.request.payload, 0, e.request.gas⟩ : SentMsg)
        :: expectMsgsSpec addr es := rfl

/-- The preparation loop emits its sends in list order: the trace is always
a prefix of the specified preparation message list, and equals it exactly
when no preparation failed. -/
theorem runPreparations_trace (env : Nat → SendResult) (addr : ActorId)
    (fixtureNo : Nat) (ps : List Preparation) : ∀ stepNo : Nat,
    (∃ t, (runPreparations env addr fixtureNo stepNo ps).1 ++ t
        = prepMsgsSpec addr ps)
    ∧ ((runPreparations env addr fixtureNo stepNo ps).2 = none →
        (runPreparations env addr fixtureNo stepNo ps).1
          = prepMsgsSpec addr ps) := by
  induction ps with
  | nil => intro stepNo; simp [runPreparations, prepMsgsSpec]
  | cons p rest ih =>
    intro stepNo
    rw [prepMsgsSpec_cons]
    cases henv : env stepNo with
    | sendFail =>
      refine ⟨⟨prepMsgsSpec addr rest, ?_⟩, ?_⟩
      · simp [runPreparations, henv]
      · intro hnone
        simp [runPreparations, henv] at hnone
    | execFail e =>
      obtain ⟨⟨t, ht⟩, hok⟩ := ih (stepNo + 1)
      refine ⟨⟨t, ?_⟩, ?_⟩
      · simp only [runPreparations, henv, List.cons_append, List.cons.injEq]
        exact ⟨trivial, ht⟩
      · intro hnone
        simp only [runPreparations, henv] at hnone ⊢
        simp [hok hnone]
    | reply payload =>
      obtain ⟨⟨t, ht⟩, hok⟩ := ih (stepNo + 1)
      refine ⟨⟨t, ?_⟩, ?_⟩
      · simp only [runPreparations, henv, List.cons_append, List.cons.injEq]
        exact ⟨trivial, ht⟩
      · intro hnone
        simp only [runPreparations, henv] at hnone ⊢
        simp [hok hnone]

/-- The expectation loop emits its sends in list order: the trace is always
a prefix of the specified expectation message list, and equals it exactly
when every expectation succeeded. -/
theorem runExpectations_trace (env : Nat → SendResult) (addr : ActorId)
    (fixtureNo : Nat) (es : List Expectation) : ∀ stepNo : Nat,
    (∃ t, (runExpectations env addr fixtureNo stepNo es).1 ++ t
        = expectMsgsSpec addr es)
    ∧ ((runExpectations env addr fixtureNo stepNo es).2 = none →
        (runExpectations env addr fixtureNo stepNo es).1
          = expectMsgsSpec addr es) := by
  induction es with
  | nil => intro stepNo; simp [runExpectations, expectMsgsSpec]
  | cons e rest ih =>
    intro stepNo
    rw [expectMsgsSpec_cons]
    cases henv : env stepNo with
    | sendFail =>
      refine ⟨⟨expectMsgsSpec addr rest, ?_⟩, ?_⟩
      · simp [runExpectations, henv]
      · intro hnone
        simp [runExpectations, henv] at hnone
    | execFail err =>
      refine ⟨⟨expectMsgsSpec addr rest, ?_⟩, ?_⟩
      · simp [runExpectations, henv]
      · intro hnone
        simp [runExpectations, henv] at hnone
    | reply payload =>
      obtain ⟨⟨t, ht⟩, hok⟩ := ih (stepNo + 1)
      cases hresp : e.response.payload with
      | none =>
        refine ⟨⟨t, ?_⟩, ?_⟩
        · simp only [runExpectations, henv, hresp, List.cons_append,
            List.cons.injEq]
          exact ⟨trivial, ht⟩
        · intro hnone
          simp only [runExpectations, henv, hresp] at hnone ⊢
          simp [hok hnone]
      | some expected =>
        by_cases hmatch : expected = payload
        · refine ⟨⟨t, ?_⟩, ?_⟩
          · simp only [runExpectations, henv, hresp, hmatch, ne_eq,
              not_true_eq_false, if_neg, List.cons_append, List.cons.injEq,
              not_false_eq_true]
            exact ⟨trivial, ht⟩
          · intro hnone
            simp only [runExpectations, henv, hresp, hmatch, ne_eq,
              not_true_eq_false, if_neg, not_false_eq_true] at hnone ⊢
            simp [hok hnone]
        · refine ⟨⟨expectMsgsSpec addr rest, ?_⟩, ?_⟩
          · simp [runExpectations, henv, hresp, hmatch]
          · intro hnone
            simp [runExpectations, henv, hresp, hmatch] at hnone

/-- Claim C6 (confirmed).  Within one executed fixture, steps are strictly
sequential in list order: the coroutine's send trace is always an initial
segment of "all preparation requests in list order, followed by all
expectation requests in list order" — so no expectation is sent before
every preparation has completed, and each step is resolved (its correlated
reply consumed from the environment) before the next is sent — and when
the fixture completes without failure the trace is exactly that whole
sequence. -/
theorem c6_fixture_sequential_trace (env : Nat → SendResult) (addr : ActorId)
    (fixtureNo : Nat) (f : Fixture) :
    (∃ t, (runFixture env addr fixtureNo f).1 ++ t
        = prepMsgsSpec addr f.preparation
          ++ expectMsgsSpec addr f.expectations)
    ∧ ((runFixture env addr fixtureNo f).2 = none →
        (runFixture env addr fixtureNo f).1
          = prepMsgsSpec addr f.preparation
            ++ expectMsgsSpec addr f.expectations) := by
  obtain ⟨⟨tp, htp⟩, hpok⟩ :=
    runPreparations_trace env addr fixtureNo f.preparation 0
  obtain ⟨⟨te, hte⟩, heok⟩ :=
    runExpectations_trace env addr fixtureNo f.expectations f.preparation.length
  unfold runFixture
  cases hprep : (runPreparations env addr fixtureNo 0 f.preparation).2 with
  | some e =>
    simp only [hprep]
    refine ⟨⟨tp ++ expectMsgsSpec addr f.expectations, ?_⟩, ?_⟩
    · rw [← List.append_assoc, htp]
    · intro hnone; exact absurd hnone (by simp)
  | none =>
    simp only [hprep]
    have hp := hpok hprep
    refine ⟨⟨te, ?_⟩, ?_⟩
    · rw [List.append_assoc, hte, hp]
    · intro hnone
      rw [hp, heok hnone]

/-- Witness for C6: the fixture `fixtureZ` (one preparation, one don't-care
expectation) completes without failure under `envReply89`, and its send
trace is exactly its preparation request followed by its expectation
request. -/
theorem c6_fixture_sequential_trace_witness :
    (runFixture (envReply89 0) 7 0 fixtureZ).1
      = prepMsgsSpec 7 fixtureZ.preparation
        ++ expectMsgsSpec 7 fixtureZ.expectations :=
  (c6_fixture_sequential_trace (envReply89 0) 7 0 fixtureZ).2 (by decide)

/-- Claim C5 (confirmed).  For an expectation step at any position in an
executed fixture's expectation chain, given that the target replied with
payload `p` (no send failure, no target-side error): if the expected
payload is `none` the step succeeds whatever `p` is and execution
continues with the remaining expectations; if it is `some bs` the step
succeeds exactly when `p = bs`, and when `p ≠ bs` the step aborts the
fixture with `PayloadMismatch` carrying the actual payload. -/
theorem c5_expectation_matching (env : Nat → SendResult) (addr : ActorId)
    (fixtureNo stepNo : Nat) (e : Expectation) (rest : List Expectation)
    (p : List Nat) (hr : env stepNo = SendResult.reply p) :
    (e.response.payload = Option.none →
      runExpectations env addr fixtureNo stepNo (e :: rest)
        = ((⟨addr, e.request.payload, 0, e.request.gas⟩ : SentMsg)
            :: (runExpectations env addr fixtureNo (stepNo + 1) rest).1,
           (runExpectations env addr fixtureNo (stepNo + 1) rest).2))
    ∧ ∀ bs, e.response.payload = some bs →
        (p = bs →
          runExpectations env addr fixtureNo stepNo (e :: rest)
            = ((⟨addr, e.request.payload, 0, e.request.gas⟩ : SentMsg)
                :: (runExpectations env addr fixtureNo (stepNo + 1) rest).1,
               (runExpectations env addr fixtureNo (stepNo + 1) rest).2))
        ∧ (p ≠ bs →
          runExpectations env addr fixtureNo stepNo (e :: rest)
            = ([(⟨addr, e.request.payload, 0, e.request.gas⟩ : SentMsg)],
               some (RuntimeError.PayloadMismatch fixtureNo p))) := by
  constructor
  · intro hresp
    simp [runExpectations, hr, hresp]
  · intro bs hresp
    constructor
    · intro heq
      simp [runExpectations, hr, hresp, heq]
    · intro hne
      have : bs ≠ p := fun h => hne h.symm
      simp [runExpectations, hr, hresp, this]

/-- Witness for C5: under an environment replying `[89]`, a single
expectation expecting `[88]` aborts with `PayloadMismatch` carrying the
actual `[89]`; the same expectation expecting `[89]` succeeds; and an
expectation expecting `none` succeeds on the same arbitrary reply. -/
theorem c5_expectation_matching_witness :
    runExpectations (fun _ => SendResult.reply [89]) 7 0 0
        [⟨⟨[1], 5, 0⟩, ⟨some [88]⟩⟩]
      = ([⟨7, [1], 0, 5⟩], some (RuntimeError.PayloadMismatch 0 [89]))
    ∧ runExpectations (fun _ => SendResult.reply [89]) 7 0 0
        [⟨⟨[1], 5, 0⟩, ⟨some [89]⟩⟩]
      = ([⟨7, [1], 0, 5⟩], none)
    ∧ runExpectations (fun _ => SendResult.reply [89]) 7 0 0
        [⟨⟨[1], 5, 0⟩, ⟨Option.none⟩⟩]
      = ([⟨7, [1], 0, 5⟩], none) := by
  refine ⟨?_, ?_, ?_⟩
  · exact ((c5_expectation_matching (fun _ => SendResult.reply [89]) 7 0 0
      ⟨⟨[1], 5, 0⟩, ⟨some [88]⟩⟩ [] [89] rfl).2 [88] rfl).2 (by decide)
  · have h := ((c5_expectation_matching (fun _ => SendResult.reply [89]) 7 0 0
      ⟨⟨[1], 5, 0⟩, ⟨some [89]⟩⟩ [] [89] rfl).2 [89] rfl).1 rfl
    exact h
  · have h := (c5_expectation_matching (fun _ => SendResult.reply [89]) 7 0 0
      ⟨⟨[1], 5, 0⟩, ⟨Option.none⟩⟩ [] [89] rfl).1 rfl
    exact h

theorem prepMsgsSpec_value_zero (addr : ActorId) (ps : List Preparation) :
    ∀ m ∈ prepMsgsSpec addr ps, m.value = 0 := by
  intro m hm
  simp only [prepMsgsSpec, List.mem_map] at hm
  obtain ⟨p, -, hp⟩ := hm
  rw [← hp]

theorem expectMsgsSpec_value_zero (addr : ActorId) (es : List Expectation) :
    ∀ m ∈ expectMsgsSpec addr es, m.value = 0 := by
  intro m hm
  simp only [expectMsgsSpec, List.mem_map] at hm
  obtain ⟨e, -, he⟩ := hm
  rw [← he]

/-- Every message the fixture coroutine sends carries value `0` (both send
sites in `io.rs` hard-code the third argument of `send_bytes_for_reply`). -/
theorem runFixture_values_zero (env : Nat → SendResult) (addr : ActorId)
    (fixtureNo : Nat) (f : Fixture) :
    ∀ m ∈ (runFixture env addr fixtureNo f).1, m.value = 0 := by
  intro m hm
  obtain ⟨⟨tp, htp⟩, -⟩ :=
    runPreparations_trace env addr fixtureNo f.preparation 0
  obtain ⟨⟨te, hte⟩, -⟩ :=
    runExpectations_trace env addr fixtureNo f.expectations f.preparation.length
  unfold runFixture at hm
  cases hprep : (runPreparations env addr fixtureNo 0 f.preparation).2 with
  | some e =>
    simp only [hprep] at hm
    exact prepMsgsSpec_value_zero addr f.preparation m
      (htp ▸ List.mem_append_left tp hm)
  | none =>
    simp only [hprep, List.mem_append] at hm
    rcases hm with hm | hm
    · exact prepMsgsSpec_value_zero addr f.preparation m
        (htp ▸ List.mem_append_left tp hm)
    · exact expectMsgsSpec_value_zero addr f.expectations m
        (hte ▸ List.mem_append_left te hm)

theorem runPreparations_eraseValue (env : Nat → SendResult) (addr : ActorId)
    (fixtureNo : Nat) (ps : List Preparation) : ∀ stepNo : Nat,
    runPreparations env addr fixtureNo stepNo (ps.map Preparation.eraseValue)
      = runPreparations env addr fixtureNo stepNo ps := by
  induction ps with
  | nil => intro stepNo; rfl
  | cons p rest ih =>
    intro stepNo
    cases henv : env stepNo with
    | sendFail => simp [runPreparations, henv, Preparation.eraseValue]
    | execFail e => simp [runPreparations, henv, Preparation.eraseValue, ih]
    | reply payload => simp [runPreparations, henv, Preparation.eraseValue, ih]

theorem runExpectations_eraseValue (env : Nat → SendResult) (addr : ActorId)
    (fixtureNo : Nat) (es : List Expectation) : ∀ stepNo : Nat,
    runExpectations env addr fixtureNo stepNo (es.map Expectation.eraseValue)
      = runExpectations env addr fixtureNo stepNo es := by
  induction es with
  | nil => intro stepNo; rfl
  | cons e rest ih =>
    intro stepNo
    cases henv : env stepNo with
    | sendFail => simp [runExpectations, henv, Expectation.eraseValue]
    | execFail err => simp [runExpectations, henv, Expectation.eraseValue]
    | reply payload =>
      cases hresp : e.response.payload with
      | none => simp [runExpectations, henv, Expectation.eraseValue, hresp, ih]
      | some expected =>
        by_cases hmatch : expected = payload
        · simp [runExpectations, henv, Expectation.eraseValue, hresp, hmatch, ih]
        · simp [runExpectations, henv, Expectation.eraseValue, hresp, hmatch]

/-- The fixture coroutine never reads a step's value-transfer field. -/
theorem runFixture_eraseValues (env : Nat → SendResult) (addr : ActorId)
    (fixtureNo : Nat) (f : Fixture) :
    runFixture env addr fixtureNo f.eraseValues
      = runFixture env addr fixtureNo f := by
  unfold runFixture Fixture.eraseValues
  simp only [runPreparations_eraseValue, runExpectations_eraseValue,
    List.length_map]

theorem gasRequired_eraseValues (f : Fixture) :
    f.eraseValues.gasRequired = f.gasRequired := by
  have h1 : ((fun p : Preparation => p.gas) ∘ Preparation.eraseValue)
      = fun p : Preparation => p.gas := rfl
  have h2 : ((fun e : Expectation => e.request.gas) ∘ Expectation.eraseValue)
      = fun e : Expectation => e.request.gas := rfl
  simp [Fixture.eraseValues, Fixture.gasRequired, List.map_map, h1, h2]

theorem gas_required_eraseValues (s : Service) :
    s.eraseValues.gas_required = s.gas_required := by
  have h : (Fixture.gasRequired ∘ Fixture.eraseValues) = Fixture.gasRequired :=
    funext gasRequired_eraseValues
  simp [Service.eraseValues, Service.gas_required, Service.fixtures,
    List.map_map, h]

theorem run_fixtures_gas_only (env2 : Nat → Nat → SendResult)
    (s1 s2 : Service) (A : Nat) (hgas : s1.gas_required = s2.gas_required) :
    run_fixtures env2 s1 A = run_fixtures env2 s2 A := by
  simp only [run_fixtures, hgas]

/-- Claim C10 (confirmed).  The value-transfer fields never influence
execution: every message a fixture coroutine sends carries value `0`, any
two fixtures differing only in the value fields of their steps produce
identical coroutine behaviour (same send trace, same outcome), and any two
collections differing only in value fields make `run_fixtures` behave
identically. -/
theorem c10_value_fields_never_influence (env : Nat → SendResult)
    (env2 : Nat → Nat → SendResult) (addr : ActorId) (fixtureNo A : Nat)
    (f g : Fixture) (s1 s2 : Service)
    (hf : f.eraseValues = g.eraseValues)
    (hs : s1.eraseValues = s2.eraseValues) :
    runFixture env addr fixtureNo f = runFixture env addr fixtureNo g
    ∧ (∀ m ∈ (runFixture env addr fixtureNo f).1, m.value = 0)
    ∧ run_fixtures env2 s1 A = run_fixtures env2 s2 A := by
  refine ⟨?_, runFixture_values_zero env addr fixtureNo f, ?_⟩
  · rw [← runFixture_eraseValues env addr fixtureNo f, hf,
      runFixture_eraseValues env addr fixtureNo g]
  · refine run_fixtures_gas_only env2 s1 s2 A ?_
    rw [← gas_required_eraseValues s1, hs, gas_required_eraseValues s2]

/-- Witness for C10: `fixtureV1` carries non-zero value fields and
`fixtureV0` is the same fixture with all values zero; the coroutine treats
them identically, all of `fixtureV1`'s sends carry value `0`, and
`run_fixtures` treats the surrounding collections identically. -/
theorem c10_value_fields_witness :
    runFixture (envReply89 0) 7 0 fixtureV1
      = runFixture (envReply89 0) 7 0 fixtureV0
    ∧ (∀ m ∈ (runFixture (envReply89 0) 7 0 fixtureV1).1, m.value = 0)
    ∧ run_fixtures envReply89 svcV1 100 = run_fixtures envReply89 svcV0 100 := by
  exact c10_value_fields_never_influence (envReply89 0) envReply89 7 0 100
    fixtureV1 fixtureV0 svcV1 svcV0 (by decide) (by decide)
